import Mathlib

/-
  Verification development for the mirror-screen repository.

  The repository drives macOS screen mirroring from a command palette:
  TypeScript domain functions generate Lua automation scripts as text,
  send them through a Hammerspoon bridge, and parse the one-line JSON
  envelope the script returns.

  This file shallowly embeds:
  * the toggle-script generator `getCode` of src/utils/toggleDisplay.ts
    (the exact template text, with the three interpolation sites);
  * the Lua-side tree searches (`searchByDescription`, `searchByTitle`,
    `findMirrorDisplays`, `findControlCenterDialog`) and the two script
    `main` bodies, as pure functions over an accessibility-tree model;
  * the TypeScript domain functions `findDisplays` and `toggleDisplay`,
    as functions of the bridge outcome (resolved text parsed as JSON,
    unparsable text, or transport rejection).
-/

/- ## String utilities: substring occurrence counting (used to state
   facts about the generated script text) -/

/-- Test whether `hasPre n l` holds: the char list `n` is an initial segment of `l`. -/
def hasPre : List Char → List Char → Bool
  | [], _ => true
  | _ :: _, [] => false
  | a :: as, b :: bs => a == b && hasPre as bs

/-- Number of positions of `hay` (including the final empty suffix) at which
    `needle` occurs as an initial segment. -/
def countOcc (needle : List Char) : List Char → Nat
  | [] => if hasPre needle [] then 1 else 0
  | c :: t => (if hasPre needle (c :: t) then 1 else 0) + countOcc needle t

/-- Test whether `n` occurs somewhere inside `l`
    (plain-substring semantics of Lua string.find for magic-free patterns). -/
def hasSub (needle : List Char) : List Char → Bool
  | [] => hasPre needle []
  | c :: t => hasPre needle (c :: t) || hasSub needle t

/-- Plain substring containment on strings. -/
def strContains (hay pat : String) : Bool := hasSub pat.data hay.data

/- ## The toggle-script generator (src/utils/toggleDisplay.ts, getCode)

   `getCode displayTitle` is the exact text of the template literal in
   toggleDisplay.ts lines 20-177, with the three interpolation sites
   `$\x7bdisplayTitle\x7d` realised by string concatenation exactly as the
   TypeScript template literal does.  The four constant pieces below are the
   template text between interpolation sites, byte for byte. -/

def togglePart0 : String :=
"
    -- Find and click on a specific display menu item
    local axuielement = require(\"hs.axuielement\")
    local application = require(\"hs.application\")
    local logger = hs.logger.new(\x27ScreenMirror\x27, \x27debug\x27)
    
    logger.setLogLevel(\x27verbose\x27)
    logger.i(\"🔍 Looking for display: "

def togglePart1 : String :=
"\")
    
    -- Function to search all elements recursively for description match (Screen Mirroring button)
    local function searchByDescription(element, depth)
      if not element or depth > 10 then return nil end
      
      local description = element:attributeValue(\"AXDescription\")
      local role = element:attributeValue(\"AXRole\")
      
      -- Check if this item has \"Screen Mirroring\" in description
      if description and description == \"Screen Mirroring\" then
        logger.i(\"✅ FOUND SCREEN MIRRORING BUTTON! Description: \" .. description .. \", Role: \" .. (role or \"unknown\"))
        return element
      end
      
      -- Recursively search children
      local children = element:attributeValue(\"AXChildren\")
      if children then
        for _, child in ipairs(children) do
          local result = searchByDescription(child, depth + 1)
          if result then return result end
        end
      end
      
      return nil
    end
    
    -- Function to search all elements recursively for the specific display
    local function searchByTitle(element, depth, targetTitle)
      if not element or depth > 10 then return nil end
      
      local title = element:attributeValue(\"AXTitle\")
      local description = element:attributeValue(\"AXDescription\")
      local role = element:attributeValue(\"AXRole\")
      
      -- Check if this item matches our target display
      if (title and title == targetTitle) or (description and description == targetTitle) then
        logger.i(\"✅ FOUND TARGET DISPLAY! Title: \" .. (title or \"nil\") .. \", Description: \" .. (description or \"nil\") .. \", Role: \" .. (role or \"unknown\"))
        return element
      end
      
      -- Recursively search children
      local children = element:attributeValue(\"AXChildren\")
      if children then
        for _, child in ipairs(children) do
          local result = searchByTitle(child, depth + 1, targetTitle)
          if result then return result end
        end
      end
      
      return nil
    end
    
    -- Function to find the Control Center dialog window
    local function findControlCenterDialog(axApp)
      local windows = axApp:attributeValue(\"AXWindows\")
      if not windows then
        return nil
      end
      
      for i, window in ipairs(windows) do
        local windowTitle = window:attributeValue(\"AXTitle\")
        local windowRole = window:attributeValue(\"AXRole\")
        
        if windowTitle and (windowTitle == \"Control Center\" or string.find(windowTitle, \"Screen Mirroring\")) then
          return window
        end
        
        if windowRole == \"AXWindow\" then
          return window
        end
      end
      
      return nil
    end
    
    -- Main execution function
    local function main()
      -- Check Control Center application
      local controlCenterApp = application.applicationsForBundleID(\"com.apple.controlcenter\")[1]
      if not controlCenterApp then
        logger.e(\"🚫 Control Center application not found\")
        return hs.json.encode(\x7bsuccess = false, error = \"Could not interact with display\"\x7d)
      end
      
      logger.i(\"✅ Found Control Center application\")
      local axApp = axuielement.applicationElement(controlCenterApp)
      if not axApp then
        logger.e(\"🚫 Could not get Control Center AX element\")
        return hs.json.encode(\x7bsuccess = false, error = \"Could not interact with display\"\x7d)
      end
      
      -- First, find and click the Screen Mirroring button to open the dialog
      logger.i(\"🔍 Searching for Screen Mirroring button...\")
      local screenMirroringElement = searchByDescription(axApp, 0)
      if not screenMirroringElement then
        logger.w(\"❌ Screen Mirroring button not found\")
        return hs.json.encode(\x7b
          success = false,
          error = \"Screen Mirroring button not found. Please ensure Control Center is accessible.\"
        \x7d)
      end
      
      logger.i(\"🖱️ Found Screen Mirroring button, clicking it...\")
      screenMirroringElement:performAction(\"AXPress\")
      
      -- Wait a moment for the dialog to appear
      hs.timer.usleep(500000) -- 0.5 seconds
      
      -- Now find the Control Center dialog window
      logger.i(\"🔍 Searching for Control Center dialog window...\")
      local dialogWindow = findControlCenterDialog(axApp)
      
      if not dialogWindow then
        logger.w(\"❌ Control Center dialog not found after clicking Screen Mirroring button\")
        return hs.json.encode(\x7b
          success = false,
          error = \"Control Center dialog not found after opening\"
        \x7d)
      end
      
      logger.i(\"✅ Found Control Center dialog, searching for target display...\")
      local targetElement = searchByTitle(dialogWindow, 0, \""

def togglePart2 : String :=
"\")
      
      if not targetElement then
        logger.w(\"❌ Could not find target display element\")
        return hs.json.encode(\x7b
          success = false,
          error = \"Display element not found\"
        \x7d)
      end
      
      logger.i(\"🖱️ Found target element, clicking it...\")
      targetElement:performAction(\"AXPress\")
      
      -- Wait a moment for the action to complete
      hs.timer.usleep(300000) -- 0.3 seconds
      
      -- Close the Control Center dialog by pressing Escape
      logger.i(\"🔐 Closing Control Center dialog with Escape key...\")
      hs.eventtap.keyStroke(\x7b\x7d, \"escape\")
      
      return hs.json.encode(\x7b
        success = true,
        message = \"Clicked on \" .. \""

def togglePart3 : String :=
"\"
      \x7d)
    end
    
    -- Execute main function
    return main()
  "

/-- The toggle-script generator: interpolates `displayTitle` (unescaped) at
    the three template sites, exactly as the TypeScript template literal. -/
def getCode (displayTitle : String) : String :=
  togglePart0 ++ displayTitle ++ togglePart1 ++ displayTitle ++ togglePart2
    ++ displayTitle ++ togglePart3


/- ## Accessibility-tree model

   An accessibility element as the Lua scripts observe it: the attribute
   values `AXTitle`, `AXDescription`, `AXRole` (each possibly nil) and the
   `AXChildren` list.  An absent/nil attribute is `none`. -/

inductive AXNode : Type where
  | node (title descr role : Option String) (children : List AXNode)

def AXNode.title : AXNode → Option String
  | AXNode.node t _ _ _ => t

def AXNode.descr : AXNode → Option String
  | AXNode.node _ d _ _ => d

def AXNode.role : AXNode → Option String
  | AXNode.node _ _ r _ => r

def AXNode.children : AXNode → List AXNode
  | AXNode.node _ _ _ cs => cs

/- ## Lua tree searches

   `searchByDescription` appears verbatim in both generated scripts
   (findDisplays.ts lines 40-62, toggleDisplay.ts lines 30-52): a pre-order
   search returning the first element whose AXDescription equals
   "Screen Mirroring", refusing to look at any element reached with
   depth > 10. -/

mutual

def searchByDescription : AXNode → Nat → Option AXNode
  | AXNode.node t d r cs, depth =>
    if depth > 10 then none
    else if d == some ("Screen Mirroring") then some (AXNode.node t d r cs)
    else searchDescChildren cs depth

def searchDescChildren : List AXNode → Nat → Option AXNode
  | [], _ => none
  | c :: rest, depth =>
    match searchByDescription c (depth + 1) with
    | some found => some found
    | none => searchDescChildren rest depth

end

/- `searchByTitle` (toggleDisplay.ts lines 55-78): pre-order search for the
   first element whose AXTitle or AXDescription equals `targetTitle`,
   refusing to look at any element reached with depth > 10. -/
mutual

def searchByTitle : AXNode → Nat → String → Option AXNode
  | AXNode.node t d r cs, depth, targetTitle =>
    if depth > 10 then none
    else if (t == some targetTitle) || (d == some targetTitle) then
      some (AXNode.node t d r cs)
    else searchTitleChildren cs depth targetTitle

def searchTitleChildren : List AXNode → Nat → String → Option AXNode
  | [], _, _ => none
  | c :: rest, depth, targetTitle =>
    match searchByTitle c (depth + 1) targetTitle with
    | some found => some found
    | none => searchTitleChildren rest depth targetTitle

end

/- ## Discovery collection (findDisplays.ts lines 65-122) -/

/-- A display record as built by the Lua discovery script:
    a table with string fields `title` and `role`. -/
structure LuaDisplay : Type where
  title : String
  role : String
deriving DecidableEq

/-- First per-element check of `findMirrorDisplays` (source order): an
    AXButton whose (non-nil) title contains "Mirror" contributes its title. -/
def buttonCheck (r t : Option String) : List LuaDisplay :=
  match r, t with
  | some rl, some ti =>
    if rl == "AXButton" && strContains ti ("Mirror") then [⟨ti, rl⟩] else []
  | _, _ => []

/-- Second check: an AXCheckBox with a non-nil description contributes the
    description. -/
def checkboxCheck (r d : Option String) : List LuaDisplay :=
  match r, d with
  | some rl, some de => if rl == "AXCheckBox" then [⟨de, rl⟩] else []
  | _, _ => []

/-- Third check: an AXDisclosureTriangle with a non-nil description
    contributes the description with the active-marker suffix appended. -/
def triangleCheck (r d : Option String) : List LuaDisplay :=
  match r, d with
  | some rl, some de =>
    if rl == "AXDisclosureTriangle" then
      [⟨de ++ " (Currently Mirroring)", rl⟩]
    else []
  | _, _ => []

/-- The three per-element checks of `findMirrorDisplays`, in source order. -/
def selfDisplays (t d r : Option String) : List LuaDisplay :=
  buttonCheck r t ++ checkboxCheck r d ++ triangleCheck r d

/- `findMirrorDisplays` (findDisplays.ts lines 65-122): collects matching
   elements of the whole subtree, own matches first, then the children
   collections in document order; elements reached with depth > 10
   contribute nothing. -/
mutual

def findMirrorDisplays : AXNode → Nat → List LuaDisplay
  | AXNode.node t d r cs, depth =>
    if depth > 10 then []
    else selfDisplays t d r ++ mirrorChildren cs depth

def mirrorChildren : List AXNode → Nat → List LuaDisplay
  | [], _ => []
  | c :: rest, depth =>
    findMirrorDisplays c (depth + 1) ++ mirrorChildren rest depth

end

/- ## Dialog window lookup (findDisplays.ts lines 125-155 and
     toggleDisplay.ts lines 81-101, identical logic)

   Walks the AXWindows list in order; for each window it first checks the
   title (equal to "Control Center", or containing "Screen Mirroring") and
   then, independently, whether the role of the window is AXWindow; the first
   window passing either check is returned.  A nil windows attribute gives
   nil. -/

/-- The title check of `findControlCenterDialog`:
    `windowTitle and (windowTitle == "Control Center" or
     string.find(windowTitle, "Screen Mirroring"))`. -/
def dialogTitleMatch (w : AXNode) : Bool :=
  match w.title with
  | some ti => (ti == "Control Center") || strContains ti ("Screen Mirroring")
  | none => false

def findCCDialogLoop : List AXNode → Option AXNode
  | [] => none
  | w :: rest =>
    if dialogTitleMatch w then some w
    else if w.role == some ("AXWindow") then some w
    else findCCDialogLoop rest

def findControlCenterDialog (axWindows : Option (List AXNode)) : Option AXNode :=
  match axWindows with
  | none => none
  | some windows => findCCDialogLoop windows

/- ## JSON values

   The single line of text crossing the bridge is a JSON document: the Lua
   side produces it with hs.json.encode, the TypeScript side parses it with
   JSON.parse.  We model the parsed value; encode-then-parse is the
   identity on this model. -/

inductive Json : Type where
  | null : Json
  | bool (b : Bool) : Json
  | num (n : Int) : Json
  | str (s : String) : Json
  | arr (elems : List Json) : Json
  | obj (fields : List (String × Json)) : Json

def lookupField : List (String × Json) → String → Option Json
  | [], _ => none
  | (k, v) :: rest, key => if k == key then some v else lookupField rest key

/-- Object field lookup; `none` both for a missing key and for a non-object
    (JavaScript property access on such values yields undefined; the null
    case, which throws instead, is handled at each use site). -/
def getField (j : Json) (key : String) : Option Json :=
  match j with
  | Json.obj fields => lookupField fields key
  | _ => none

/-- JavaScript truthiness of a parsed JSON value. -/
def truthy : Json → Bool
  | Json.null => false
  | Json.bool b => b
  | Json.num n => n != 0
  | Json.str s => s != ""
  | Json.arr _ => true
  | Json.obj _ => true

/-- Truthiness of a possibly-undefined value (undefined is falsy). -/
def truthyOpt : Option Json → Bool
  | none => false
  | some v => truthy v

/-- Encoding of a Lua display record into the JSON envelope. -/
def encodeDisplay (d : LuaDisplay) : Json :=
  Json.obj [("title", Json.str d.title), ("role", Json.str d.role)]

/- ## The world a script run observes

   One run of a generated script is a pure function of the accessibility
   state it reads: whether the Control Center application exists, its
   application AX element (the tree walked by searchByDescription), and the
   value of its AXWindows attribute as read after the Screen Mirroring
   button has been pressed and the fixed 0.5s pause has elapsed.  The press,
   the sleeps and the closing escape keystroke do not influence anything
   the same run reads afterwards, so they have no model beyond that. -/
structure World : Type where
  controlCenterApp : Bool
  axApp : Option AXNode
  axWindows : Option (List AXNode)

/- ## The main function of the discovery script (findDisplays.ts lines 158-224)

   Returns the JSON value encoded by the hs.json.encode call of the branch
   taken. -/
def discoveryMain (w : World) : Json :=
  if !w.controlCenterApp then
    Json.obj [("found", Json.bool false),
              ("error", Json.str ("Control Center application not found"))]
  else
    match w.axApp with
    | none =>
      Json.obj [("found", Json.bool false),
                ("error",
                 Json.str ("Could not access Control Center accessibility element"))]
    | some axApp =>
      match searchByDescription axApp 0 with
      | none =>
        Json.obj [("found", Json.bool false),
                  ("error",
                   Json.str ("Screen Mirroring button not found in Control Center"))]
      | some _ =>
        match findControlCenterDialog w.axWindows with
        | none =>
          Json.obj [("found", Json.bool true),
                    ("title", Json.str ("Screen Mirroring")),
                    ("app", Json.str ("Control Center")),
                    ("error", Json.str ("Dialog not found"))]
        | some dialogWindow =>
          let displays := findMirrorDisplays dialogWindow 0
          let displayTitles := displays.map (fun d => d.title)
          Json.obj [("found", Json.bool true),
                    ("title", Json.str ("Screen Mirroring")),
                    ("app", Json.str ("Control Center")),
                    ("displays", Json.arr (displays.map encodeDisplay)),
                    ("displayTitles",
                     Json.arr (displayTitles.map (fun s => Json.str s))),
                    ("displayCount", Json.num (displays.length : Int))]

/- ## The main function of the toggle script (toggleDisplay.ts lines 104-173)

   `displayTitle` is the string interpolated into the script by getCode;
   inside the script it is a plain Lua string literal (assuming an
   identifier that does not break out of the literal, cf. the unescaped
   interpolation established separately). -/
def toggleMain (w : World) (displayTitle : String) : Json :=
  if !w.controlCenterApp then
    Json.obj [("success", Json.bool false),
              ("error", Json.str ("Could not interact with display"))]
  else
    match w.axApp with
    | none =>
      Json.obj [("success", Json.bool false),
                ("error", Json.str ("Could not interact with display"))]
    | some axApp =>
      match searchByDescription axApp 0 with
      | none =>
        Json.obj [("success", Json.bool false),
                  ("error",
                   Json.str ("Screen Mirroring button not found. Please ensure Control Center is accessible."))]
      | some _ =>
        match findControlCenterDialog w.axWindows with
        | none =>
          Json.obj [("success", Json.bool false),
                    ("error",
                     Json.str ("Control Center dialog not found after opening"))]
        | some dialogWindow =>
          match searchByTitle dialogWindow 0 displayTitle with
          | none =>
            Json.obj [("success", Json.bool false),
                      ("error", Json.str ("Display element not found"))]
          | some _ =>
            Json.obj [("success", Json.bool true),
                      ("message", Json.str ("Clicked on " ++ displayTitle))]

/- ## The bridge outcome

   `callHammerspoon(luaCode)` either rejects (transport failure) or resolves
   with one line of text; that text either fails JSON.parse or parses to a
   JSON value.  The domain functions only look at the response through
   JSON.parse, so the outcome is modelled post-parse. -/
inductive BridgeOutcome : Type where
  | rejected (err : String) : BridgeOutcome
  | notJson : BridgeOutcome
  | json (j : Json) : BridgeOutcome

/- ## findDisplays (findDisplays.ts lines 232-250)

   The discovery script is a constant, so the run is a function of the
   bridge outcome alone. -/

/-- A parsed display as findDisplays builds it:
    `(display) => (\x7b title: display.title, role: display.role \x7d)`.
    The fields hold the raw JavaScript property values; `none` is
    undefined (property absent or accessed on a non-object). -/
structure ScreenDisplay : Type where
  title : Option Json
  role : Option Json

/-- Per-element body of `result.displays.map(...)`; `none` means the
    property access threw (element is null), which aborts to the catch. -/
def toScreenDisplay : Json → Option ScreenDisplay
  | Json.null => none
  | j => some ⟨getField j ("title"), getField j ("role")⟩

def mapDisplays : List Json → Option (List ScreenDisplay)
  | [] => some []
  | e :: rest =>
    match toScreenDisplay e, mapDisplays rest with
    | some d, some ds => some (d :: ds)
    | _, _ => none

/-- The try-block of findDisplays applied to the parsed value; `none` means
    an exception was thrown inside the try (property access on null, or
    `.map` on a truthy non-array). -/
def findDisplaysTry (j : Json) : Option (List ScreenDisplay) :=
  match j with
  | Json.null => none
  | _ =>
    if truthyOpt (getField j ("found")) && truthyOpt (getField j ("displays"))
    then
      match getField j ("displays") with
      | some (Json.arr ds) => mapDisplays ds
      | _ => none
    else some []

/-- The findDisplays function, as a function of the bridge outcome: any rejection,
    parse failure or in-try exception is caught and becomes the empty
    list; the function always resolves. -/
def findDisplays (response : BridgeOutcome) : List ScreenDisplay :=
  match response with
  | BridgeOutcome.rejected _ => []
  | BridgeOutcome.notJson => []
  | BridgeOutcome.json j =>
    match findDisplaysTry j with
    | some out => out
    | none => []

/- ## toggleDisplay (toggleDisplay.ts lines 185-203) -/

/-- The result object of toggleDisplay.  `success` holds the value of
    `result.success || false` (JavaScript `||` keeps a truthy left value
    verbatim); `message` and `error` hold the raw property values,
    `none` being undefined. -/
structure ToggleDisplayResult : Type where
  success : Json
  message : Option Json
  error : Option Json

/-- The try-block of toggleDisplay applied to the parsed value; `none`
    means property access on null threw. -/
def toggleDisplayTry (j : Json) : Option ToggleDisplayResult :=
  match j with
  | Json.null => none
  | _ =>
    some { success :=
             match getField j ("success") with
             | some v => if truthy v then v else Json.bool false
             | none => Json.bool false,
           message := getField j ("message"),
           error := getField j ("error") }

/-- The value produced by the catch handler of toggleDisplay. -/
def toggleCatchResult : ToggleDisplayResult :=
  { success := Json.bool false,
    message := none,
    error := some (Json.str ("Failed to interact with display")) }

/-- The toggleDisplay function, parameterised by the bridge: it generates the script
    with `getCode displayTitle`, sends exactly that text through the
    bridge, and parses the outcome; every failure is caught and becomes
    `toggleCatchResult`; the function always resolves. -/
def toggleDisplay (bridge : String → BridgeOutcome)
    (displayTitle : String) : ToggleDisplayResult :=
  let luaCode := getCode displayTitle
  match bridge luaCode with
  | BridgeOutcome.rejected _ => toggleCatchResult
  | BridgeOutcome.notJson => toggleCatchResult
  | BridgeOutcome.json j =>
    match toggleDisplayTry j with
    | some out => out
    | none => toggleCatchResult

/-- The full discovery pipeline for a fixed world: the emitted Lua-script
    envelope crosses the bridge as one line of JSON text and is parsed back
    by findDisplays (encode-then-parse is the identity on the Json model). -/
def runDiscovery (w : World) : List ScreenDisplay :=
  findDisplays (BridgeOutcome.json (discoveryMain w))

/- ## Spec-side definitions

   Written from the words of the specification, to be compared with the
   source-derived traversals: the spec describes the discovery collection as
   a depth-bounded pre-order visit (node before its children, children in
   document order, nothing at depth > 10) emitting per-node display records,
   with no de-duplication. -/

/- The depth-bounded pre-order listing of visited elements: an element
   reached with depth > 10 (root at depth 0) is not visited and hides its
   whole subtree. -/
mutual

def visitedNodes : AXNode → Nat → List AXNode
  | AXNode.node t d r cs, depth =>
    if depth > 10 then []
    else AXNode.node t d r cs :: visitedChildren cs depth

def visitedChildren : List AXNode → Nat → List AXNode
  | [], _ => []
  | c :: rest, depth =>
    visitedNodes c (depth + 1) ++ visitedChildren rest depth

end

/-- Spec-side button emission: an AXButton node whose title contains
    "Mirror" emits one display record with that title. -/
def specButton (n : AXNode) : List LuaDisplay :=
  match n.title with
  | some ti =>
    if n.role == some ("AXButton") && strContains ti ("Mirror") then
      [⟨ti, "AXButton"⟩]
    else []
  | none => []

/-- Spec-side checkbox emission: an AXCheckBox node with a non-nil
    description emits one display record titled by that description. -/
def specCheckbox (n : AXNode) : List LuaDisplay :=
  match n.descr with
  | some de => if n.role == some ("AXCheckBox") then [⟨de, "AXCheckBox"⟩] else []
  | none => []

/-- Spec-side disclosure-triangle emission: an AXDisclosureTriangle node
    with a non-nil description emits one display record titled by the
    description with the active-marker suffix " (Currently Mirroring)"
    appended. -/
def specTriangle (n : AXNode) : List LuaDisplay :=
  match n.descr with
  | some de =>
    if n.role == some ("AXDisclosureTriangle") then
      [⟨de ++ " (Currently Mirroring)", "AXDisclosureTriangle"⟩]
    else []
  | none => []

/-- Spec-side per-node emission, in the order given by the spec: button-like nodes with
    a mirror-related label, then checkboxes with a description, then
    disclosure elements with a description (active-marker suffix appended);
    no de-duplication. -/
def emitNode (n : AXNode) : List LuaDisplay :=
  specButton n ++ specCheckbox n ++ specTriangle n


/- ## Envelope shapes and fixtures -/

/-- A well-formed display entry of the discovery envelope, as a JSON value:
    an object with string fields `title` and `role`. -/
def envelopeDisplay (p : String × String) : Json :=
  Json.obj [("title", Json.str p.1), ("role", Json.str p.2)]

/-- The `ScreenDisplay` that findDisplays builds from a well-formed entry. -/
def parsedDisplay (p : String × String) : ScreenDisplay :=
  ⟨some (Json.str p.1), some (Json.str p.2)⟩

/-- Scenario A envelope: discovery succeeded with two displays. -/
def scenarioA : Json :=
  Json.obj [("found", Json.bool true),
            ("displays",
             Json.arr ([("Bedroom Apple TV", "AXCheckBox"),
                        ("Office Display (Currently Mirroring)",
                         "AXDisclosureTriangle")].map envelopeDisplay))]

/-- Scenario B envelope: total discovery failure. -/
def scenarioB : Json :=
  Json.obj [("found", Json.bool false),
            ("error", Json.str ("Control Center application not found"))]

/-- A linear accessibility tree: `deepFixture k` has a single branch of
    length `k`, and its one potentially matching element (description
    "Screen Mirroring", title "Needle") sits at depth `k`. -/
def deepFixture : Nat → AXNode
  | 0 => AXNode.node (some ("Needle")) (some ("Screen Mirroring")) none []
  | k + 1 => AXNode.node none none none [deepFixture k]

/-- A world with no Control Center application. -/
def emptyWorld : World := ⟨false, none, none⟩

/-- An application element whose root is the Screen Mirroring button. -/
def sampleAx : AXNode :=
  AXNode.node none (some ("Screen Mirroring")) (some ("AXButton")) []

/-- A dialog window containing one available display checkbox. -/
def sampleDialog : AXNode :=
  AXNode.node (some ("Control Center")) none none
    [AXNode.node none (some ("Bedroom Apple TV")) (some ("AXCheckBox")) []]

/-- A world in which discovery succeeds with one display. -/
def successWorld : World := ⟨true, some sampleAx, some [sampleDialog]⟩

/-- A bridge whose call always resolves with unparsable text. -/
def bridgeNotJson : String → BridgeOutcome := fun _ => BridgeOutcome.notJson

/-- A second bridge resolving with unparsable text. -/
def bridgeNotJson2 : String → BridgeOutcome := fun _ => BridgeOutcome.notJson

/-- A bridge whose call always rejects. -/
def bridgeRejecting : String → BridgeOutcome :=
  fun _ => BridgeOutcome.rejected ("transport error")

/- ## Match predicates of the recursive searches -/

/-- The match predicate of `searchByDescription`: description present and
    equal to "Screen Mirroring". -/
def descrMatch (n : AXNode) : Bool := n.descr == some ("Screen Mirroring")

/-- The match predicate of `searchByTitle`: title or description present and
    equal to the target. -/
def titleMatch (target : String) (n : AXNode) : Bool :=
  (n.title == some target) || (n.descr == some target)

/- ## Basic lemmas on the string utilities -/

theorem data_append (a b : String) : (a ++ b).data = a.data ++ b.data := by
  cases a; cases b; rfl

theorem hasPre_self (n t : List Char) : hasPre n (n ++ t) = true := by
  induction n with
  | nil => rfl
  | cons a as ih => simp [hasPre, ih]

theorem countOcc_le_append (x n t : List Char) :
    countOcc n t ≤ countOcc n (x ++ t) := by
  induction x with
  | nil => simp
  | cons c cs ih =>
    calc countOcc n t ≤ countOcc n (cs ++ t) := ih
    _ ≤ (if hasPre n (c :: (cs ++ t)) then 1 else 0) + countOcc n (cs ++ t) :=
        Nat.le_add_left _ _
    _ = countOcc n ((c :: cs) ++ t) := by simp [countOcc]

theorem hasPre_cons_self (c : Char) (cs t : List Char) :
    hasPre (c :: cs) (c :: (cs ++ t)) = true := by
  simp [hasPre, hasPre_self]

theorem countOcc_self_append (n t : List Char) (h : n ≠ []) :
    countOcc n t + 1 ≤ countOcc n (n ++ t) := by
  match n, h with
  | c :: cs, _ =>
    have h2 : countOcc (c :: cs) ((c :: cs) ++ t)
        = 1 + countOcc (c :: cs) (cs ++ t) := by
      simp [countOcc, hasPre_cons_self]
    have h3 := countOcc_le_append cs (c :: cs) t
    omega

/- ## Lemmas on the generated toggle-script text -/

/-- The identifier is interpolated at three sites of the toggle template, so
    any non-empty identifier occurs at least three times in the script text. -/
theorem getCode_occ (T : String) (h : T.data ≠ []) :
    3 ≤ countOcc T.data (getCode T).data := by
  have hd : (getCode T).data
      = togglePart0.data ++ (T.data ++ (togglePart1.data ++ (T.data
          ++ (togglePart2.data ++ (T.data ++ togglePart3.data))))) := by
    simp [getCode, data_append, List.append_assoc]
  set n := T.data with hn
  have s1 := countOcc_self_append n togglePart3.data h
  have s2 := countOcc_le_append togglePart2.data n (n ++ togglePart3.data)
  have s3 := countOcc_self_append n
    (togglePart2.data ++ (n ++ togglePart3.data)) h
  have s4 := countOcc_le_append togglePart1.data n
    (n ++ (togglePart2.data ++ (n ++ togglePart3.data)))
  have s5 := countOcc_self_append n
    (togglePart1.data ++ (n ++ (togglePart2.data ++ (n ++ togglePart3.data)))) h
  have s6 := countOcc_le_append togglePart0.data n
    (n ++ (togglePart1.data ++ (n ++ (togglePart2.data
      ++ (n ++ togglePart3.data)))))
  rw [hd]
  omega

/-- If two generated toggle scripts are equal, the interpolated identifiers
    have equal lengths (the fixed template pieces cancel). -/
theorem getCode_inj_length (a b : String)
    (h : getCode a = getCode b) : a.data.length = b.data.length := by
  have h2 := congrArg (fun s => s.data.length) h
  simp only [getCode, data_append, List.length_append] at h2
  omega

/- ## The discovery collection as a pre-order emission -/

theorem specButton_eq (t d r : Option String) (cs : List AXNode) :
    specButton (AXNode.node t d r cs) = buttonCheck r t := by
  simp only [specButton, buttonCheck, AXNode.title, AXNode.role]
  cases r with
  | none => cases t <;> rfl
  | some rl =>
    cases t with
    | none => rfl
    | some ti =>
      by_cases h : rl = "AXButton"
      · subst h; rfl
      · have hb : (rl == "AXButton") = false := by
          simp [h]
        simp [hb]

theorem specCheckbox_eq (t d r : Option String) (cs : List AXNode) :
    specCheckbox (AXNode.node t d r cs) = checkboxCheck r d := by
  simp only [specCheckbox, checkboxCheck, AXNode.descr, AXNode.role]
  cases r with
  | none => cases d <;> rfl
  | some rl =>
    cases d with
    | none => rfl
    | some de =>
      by_cases h : rl = "AXCheckBox"
      · subst h; rfl
      · have hb : (rl == "AXCheckBox") = false := by
          simp [h]
        simp [hb]

theorem specTriangle_eq (t d r : Option String) (cs : List AXNode) :
    specTriangle (AXNode.node t d r cs) = triangleCheck r d := by
  simp only [specTriangle, triangleCheck, AXNode.descr, AXNode.role]
  cases r with
  | none => cases d <;> rfl
  | some rl =>
    cases d with
    | none => rfl
    | some de =>
      by_cases h : rl = "AXDisclosureTriangle"
      · subst h; rfl
      · have hb : (rl == "AXDisclosureTriangle") = false := by
          simp [h]
        simp [hb]

theorem emitNode_eq_selfDisplays (t d r : Option String) (cs : List AXNode) :
    emitNode (AXNode.node t d r cs) = selfDisplays t d r := by
  simp only [emitNode, selfDisplays, specButton_eq t d r cs,
    specCheckbox_eq t d r cs, specTriangle_eq t d r cs]

mutual

theorem findMirrorDisplays_visits : ∀ (n : AXNode) (depth : Nat),
    findMirrorDisplays n depth = (visitedNodes n depth).flatMap emitNode
  | AXNode.node t d r cs, depth => by
    by_cases h : depth > 10
    · simp [findMirrorDisplays, visitedNodes, h]
    · simp only [findMirrorDisplays, visitedNodes, h, if_false,
        List.flatMap_cons, emitNode_eq_selfDisplays,
        mirrorChildren_visits cs depth]

theorem mirrorChildren_visits : ∀ (cs : List AXNode) (depth : Nat),
    mirrorChildren cs depth = (visitedChildren cs depth).flatMap emitNode
  | [], _ => rfl
  | c :: rest, depth => by
    simp only [mirrorChildren, visitedChildren, List.flatMap_append,
      findMirrorDisplays_visits c (depth + 1),
      mirrorChildren_visits rest depth]

end

/- ## Depth-bound lemmas for the recursive searches -/

mutual

theorem searchDesc_notFound : ∀ (n : AXNode) (depth : Nat),
    (∀ m ∈ visitedNodes n depth, descrMatch m = false) →
    searchByDescription n depth = none
  | AXNode.node t d r cs, depth => by
    intro h
    by_cases hd : depth > 10
    · simp [searchByDescription, hd]
    · have hself : descrMatch (AXNode.node t d r cs) = false := by
        apply h
        simp [visitedNodes, hd]
      have hrest : ∀ m ∈ visitedChildren cs depth, descrMatch m = false := by
        intro m hm
        apply h
        simp [visitedNodes, hd, hm]
      simp only [descrMatch, AXNode.descr] at hself
      simp only [searchByDescription, hd, if_false, hself,
        Bool.false_eq_true, searchDescChildren_notFound cs depth hrest]

theorem searchDescChildren_notFound : ∀ (cs : List AXNode) (depth : Nat),
    (∀ m ∈ visitedChildren cs depth, descrMatch m = false) →
    searchDescChildren cs depth = none
  | [], _ => by intro h; rfl
  | c :: rest, depth => by
    intro h
    have h1 : ∀ m ∈ visitedNodes c (depth + 1), descrMatch m = false := by
      intro m hm
      apply h
      simp [visitedChildren, hm]
    have h2 : ∀ m ∈ visitedChildren rest depth, descrMatch m = false := by
      intro m hm
      apply h
      simp [visitedChildren, hm]
    simp only [searchDescChildren, searchDesc_notFound c (depth + 1) h1,
      searchDescChildren_notFound rest depth h2]

end

mutual

theorem searchTitle_notFound : ∀ (n : AXNode) (depth : Nat) (target : String),
    (∀ m ∈ visitedNodes n depth, titleMatch target m = false) →
    searchByTitle n depth target = none
  | AXNode.node t d r cs, depth, target => by
    intro h
    by_cases hd : depth > 10
    · simp [searchByTitle, hd]
    · have hself : titleMatch target (AXNode.node t d r cs) = false := by
        apply h
        simp [visitedNodes, hd]
      have hrest : ∀ m ∈ visitedChildren cs depth, titleMatch target m = false := by
        intro m hm
        apply h
        simp [visitedNodes, hd, hm]
      simp only [titleMatch, AXNode.title, AXNode.descr,
        Bool.or_eq_false_iff] at hself
      simp only [searchByTitle, hd, if_false, hself.1, hself.2,
        Bool.or_self, Bool.false_eq_true,
        searchTitleChildren_notFound cs depth target hrest]

theorem searchTitleChildren_notFound :
    ∀ (cs : List AXNode) (depth : Nat) (target : String),
    (∀ m ∈ visitedChildren cs depth, titleMatch target m = false) →
    searchTitleChildren cs depth target = none
  | [], _, _ => by intro h; rfl
  | c :: rest, depth, target => by
    intro h
    have h1 : ∀ m ∈ visitedNodes c (depth + 1), titleMatch target m = false := by
      intro m hm
      apply h
      simp [visitedChildren, hm]
    have h2 : ∀ m ∈ visitedChildren rest depth, titleMatch target m = false := by
      intro m hm
      apply h
      simp [visitedChildren, hm]
    simp only [searchTitleChildren, searchTitle_notFound c (depth + 1) target h1,
      searchTitleChildren_notFound rest depth target h2]

end

/- ## Characterisation of the dialog-window loop -/

theorem findCCDialogLoop_eq_find (ws : List AXNode) :
    findCCDialogLoop ws
      = ws.find? (fun w => dialogTitleMatch w || (w.role == some ("AXWindow"))) := by
  induction ws with
  | nil => rfl
  | cons w rest ih =>
    by_cases h1 : dialogTitleMatch w
    · simp [findCCDialogLoop, List.find?, h1]
    · by_cases h2 : (w.role == some ("AXWindow")) = true
      · simp [findCCDialogLoop, List.find?, h1, h2]
      · simp only [Bool.not_eq_true] at *
        simp [findCCDialogLoop, List.find?, h1, h2, ih]

/- ## Remaining helper lemmas -/

theorem mapDisplays_map (ds : List (String × String)) :
    mapDisplays (ds.map envelopeDisplay) = some (ds.map parsedDisplay) := by
  induction ds with
  | nil => rfl
  | cons p rest ih =>
    have h1 : toScreenDisplay (envelopeDisplay p)
        = some ⟨some (Json.str p.1), some (Json.str p.2)⟩ := rfl
    simp [mapDisplays, h1, ih, parsedDisplay]

/-- Every branch of the main of the toggle script emits an envelope whose
    `success` field is a JSON boolean. -/
theorem toggleMain_success_bool (w : World) (T : String) :
    getField (toggleMain w T) ("success") = some (Json.bool true)
      ∨ getField (toggleMain w T) ("success") = some (Json.bool false) := by
  rcases w with ⟨cc, ax, wins⟩
  cases cc with
  | false => right; rfl
  | true =>
    cases ax with
    | none => right; rfl
    | some axApp =>
      cases hsd : searchByDescription axApp 0 with
      | none => right; simp [toggleMain, hsd, getField, lookupField]
      | some el =>
        cases hdw : findControlCenterDialog wins with
        | none => right; simp [toggleMain, hsd, hdw, getField, lookupField]
        | some dlg =>
          cases hst : searchByTitle dlg 0 T with
          | none =>
            right; simp [toggleMain, hsd, hdw, hst, getField, lookupField]
          | some tgt =>
            left; simp [toggleMain, hsd, hdw, hst, getField, lookupField]

/- ## Claim theorems -/

/-- C1 (counterexample): the claim says the identifier appears exactly once
    in the generated toggle script; for the identifier "ZQWV" (which occurs
    nowhere in the fixed template text) the script contains it at the three
    interpolation sites, so the occurrence count is not 1. -/
theorem getCode_identifier_not_once :
    countOcc (String.data ("ZQWV")) (String.data (getCode ("ZQWV"))) ≠ 1 := by
  have h := getCode_occ ("ZQWV") (by decide)
  omega

/-- C1 (amended): the identifier is interpolated raw (unescaped) at three
    template sites, so any non-empty identifier occurs at least three times
    in the generated script text — not exactly once; and every return path
    of the main of the script yields a JSON object with a boolean `success`
    field. -/
theorem getCode_three_sites_and_success_bool :
    (∀ T : String, T.data ≠ [] → 3 ≤ countOcc T.data (getCode T).data)
      ∧ (∀ (w : World) (T : String),
          getField (toggleMain w T) ("success") = some (Json.bool true)
            ∨ getField (toggleMain w T) ("success") = some (Json.bool false)) :=
  ⟨getCode_occ, toggleMain_success_bool⟩

/-- C1 (witness): the amended theorem applied at the identifier "ZQWV" and
    at a concrete world with no Control Center application. -/
theorem getCode_three_sites_witness :
    3 ≤ countOcc (String.data ("ZQWV")) (String.data (getCode ("ZQWV")))
      ∧ (getField (toggleMain emptyWorld ("ZQWV")) ("success")
           = some (Json.bool true)
         ∨ getField (toggleMain emptyWorld ("ZQWV")) ("success")
           = some (Json.bool false)) :=
  ⟨getCode_three_sites_and_success_bool.1 ("ZQWV") (by decide),
   getCode_three_sites_and_success_bool.2 emptyWorld ("ZQWV")⟩

/-- C3: whenever the bridge call for a toggle script rejects or resolves
    with text that fails JSON.parse, toggleDisplay resolves (it is a total
    function into results, never an exception) with the result whose
    success is false and whose error is "Failed to interact with display". -/
theorem toggleDisplay_failure_resolves
    (bridge : String → BridgeOutcome) (displayTitle : String)
    (h : (∃ e, bridge (getCode displayTitle) = BridgeOutcome.rejected e)
         ∨ bridge (getCode displayTitle) = BridgeOutcome.notJson) :
    toggleDisplay bridge displayTitle
      = { success := Json.bool false,
          message := none,
          error := some (Json.str ("Failed to interact with display")) } := by
  rcases h with ⟨e, he⟩ | he <;>
    simp [toggleDisplay, he, toggleCatchResult]

/-- C3 (witness): a bridge that always rejects, at the display title
    "Bedroom Apple TV". -/
theorem toggleDisplay_failure_witness :
    toggleDisplay bridgeRejecting ("Bedroom Apple TV")
      = { success := Json.bool false,
          message := none,
          error := some (Json.str ("Failed to interact with display")) } :=
  toggleDisplay_failure_resolves bridgeRejecting ("Bedroom Apple TV")
    (Or.inl ⟨"transport error", rfl⟩)

/-- C4 (counterexample): the claim says toggleDisplay strips the
    active-marker suffix before embedding.  It does not: for the identifier
    "ZQW (Currently Mirroring)" the script sent to the bridge contains the
    suffixed identifier (at least once — in fact at the three interpolation
    sites), and it differs from the script generated for the stripped
    identifier "ZQW". -/
theorem toggleDisplay_no_strip_counterexample :
    1 ≤ countOcc (String.data ("ZQW (Currently Mirroring)"))
          (String.data (getCode ("ZQW (Currently Mirroring)")))
      ∧ getCode ("ZQW (Currently Mirroring)") ≠ getCode ("ZQW") := by
  constructor
  · have h := getCode_occ ("ZQW (Currently Mirroring)") (by decide)
    omega
  · intro h
    exact absurd (getCode_inj_length _ _ h) (by decide)

/-- C4 (amended): toggleDisplay performs no stripping: the only script it
    sends to the bridge is `getCode` of the unmodified identifier (its
    result depends on the bridge only at that script), and an identifier
    carrying the active-marker suffix is embedded with the suffix intact at
    the three interpolation sites.  Stripping is a caller
    responsibility. -/
theorem toggleDisplay_embeds_identifier_verbatim :
    (∀ (b b' : String → BridgeOutcome) (t : String),
       b (getCode t) = b' (getCode t) →
       toggleDisplay b t = toggleDisplay b' t)
      ∧ (∀ s : String,
          3 ≤ countOcc (s ++ " (Currently Mirroring)").data
                (getCode (s ++ " (Currently Mirroring)")).data) := by
  constructor
  · intro b b' t h
    simp [toggleDisplay, h]
  · intro s
    apply getCode_occ
    rw [data_append]
    simp

/-- C4 (witness): the amended theorem applied to two concrete bridges that
    agree on the generated script, at identifiers "A" and "ZQW". -/
theorem toggleDisplay_embeds_identifier_witness :
    toggleDisplay bridgeNotJson ("A") = toggleDisplay bridgeNotJson2 ("A")
      ∧ 3 ≤ countOcc (String.data ("ZQW" ++ " (Currently Mirroring)"))
              (String.data (getCode ("ZQW" ++ " (Currently Mirroring)"))) :=
  ⟨toggleDisplay_embeds_identifier_verbatim.1 bridgeNotJson bridgeNotJson2
     ("A") rfl,
   toggleDisplay_embeds_identifier_verbatim.2 ("ZQW")⟩

/-- C2: findDisplays is total (never rejects); when the response parses to a
    JSON value whose `found` is `true` and whose `displays` is an array of
    well-formed title/role objects, it returns exactly those displays in
    order; on bridge rejection, unparsable text, a non-truthy `found`
    (false or absent), or an absent `displays` field it returns the empty
    list. -/
theorem findDisplays_envelope_spec :
    (∀ (j : Json) (ds : List (String × String)),
       getField j ("found") = some (Json.bool true) →
       getField j ("displays") = some (Json.arr (ds.map envelopeDisplay)) →
       findDisplays (BridgeOutcome.json j) = ds.map parsedDisplay)
      ∧ (∀ e, findDisplays (BridgeOutcome.rejected e) = [])
      ∧ findDisplays BridgeOutcome.notJson = []
      ∧ (∀ j : Json, truthyOpt (getField j ("found")) = false →
          findDisplays (BridgeOutcome.json j) = [])
      ∧ (∀ j : Json, getField j ("displays") = none →
          findDisplays (BridgeOutcome.json j) = []) := by
  refine ⟨?_, fun e => rfl, rfl, ?_, ?_⟩
  · intro j ds h1 h2
    cases j with
    | obj fields =>
      simp [findDisplays, findDisplaysTry, h1, h2, truthyOpt, truthy,
        mapDisplays_map]
    | null => simp [getField] at h1
    | bool b => simp [getField] at h1
    | num n => simp [getField] at h1
    | str s => simp [getField] at h1
    | arr elems => simp [getField] at h1
  · intro j h
    cases j with
    | null => rfl
    | obj fields => simp [findDisplays, findDisplaysTry, h]
    | bool b => simp [findDisplays, findDisplaysTry, h]
    | num n => simp [findDisplays, findDisplaysTry, h]
    | str s => simp [findDisplays, findDisplaysTry, h]
    | arr elems => simp [findDisplays, findDisplaysTry, h]
  · intro j h
    cases j with
    | null => rfl
    | obj fields =>
      simp [findDisplays, findDisplaysTry, h, truthyOpt, Bool.and_comm]
    | bool b => simp [findDisplays, findDisplaysTry, h, truthyOpt, Bool.and_comm]
    | num n => simp [findDisplays, findDisplaysTry, h, truthyOpt, Bool.and_comm]
    | str s => simp [findDisplays, findDisplaysTry, h, truthyOpt, Bool.and_comm]
    | arr elems =>
      simp [findDisplays, findDisplaysTry, h, truthyOpt, Bool.and_comm]

/-- C2 (witness): the theorem applied to the two concrete scenario
    envelopes: scenario A resolves to its two displays in order, scenario B
    resolves to the empty list. -/
theorem findDisplays_scenarios_witness :
    findDisplays (BridgeOutcome.json scenarioA)
      = [parsedDisplay ("Bedroom Apple TV", "AXCheckBox"),
         parsedDisplay ("Office Display (Currently Mirroring)",
                        "AXDisclosureTriangle")]
      ∧ findDisplays (BridgeOutcome.json scenarioB) = [] :=
  ⟨findDisplays_envelope_spec.1 scenarioA
     [("Bedroom Apple TV", "AXCheckBox"),
      ("Office Display (Currently Mirroring)", "AXDisclosureTriangle")]
     rfl rfl,
   findDisplays_envelope_spec.2.2.2.1 scenarioB rfl⟩

/-- C5 (counterexample): the claim says a title-matching window is preferred
    over the AXWindow fallback whenever one exists in the list.  In the list
    below the title of the second window matches ("Control Center") yet the
    routine returns the first window, whose title does not match, because
    its role AXWindow already triggers the fallback inside the same loop
    iteration. -/
theorem findControlCenterDialog_counterexample :
    findControlCenterDialog
        (some [AXNode.node (some ("Other")) none (some ("AXWindow")) [],
               AXNode.node (some ("Control Center")) none none []])
      = some (AXNode.node (some ("Other")) none (some ("AXWindow")) [])
      ∧ dialogTitleMatch (AXNode.node (some ("Other")) none (some ("AXWindow")) [])
          = false
      ∧ dialogTitleMatch (AXNode.node (some ("Control Center")) none none [])
          = true :=
  ⟨rfl, rfl, rfl⟩

/-- C5 (amended): the routine scans the windows in order and returns the
    first window that passes either test of its loop iteration — title
    equal to "Control Center" or containing "Screen Mirroring", or role
    AXWindow; a nil windows attribute yields nil.  An earlier window with
    role AXWindow therefore preempts a later title-matching window. -/
theorem findControlCenterDialog_first_match (ws : List AXNode) :
    findControlCenterDialog (some ws)
      = ws.find? (fun w => dialogTitleMatch w || (w.role == some ("AXWindow")))
      ∧ findControlCenterDialog none = none :=
  ⟨findCCDialogLoop_eq_find ws, rfl⟩

/-- C6: if every element visited by the depth-bounded pre-order walk (the
    elements at depth at most 10; deeper elements are never examined) fails
    the match predicate, then both recursive searches report "not found",
    even when a matching element exists at depth 11 or beyond. -/
theorem search_depth_bounded (root : AXNode) (target : String)
    (hdesc : ∀ m ∈ visitedNodes root 0, descrMatch m = false)
    (htitle : ∀ m ∈ visitedNodes root 0, titleMatch target m = false) :
    searchByDescription root 0 = none ∧ searchByTitle root 0 target = none :=
  ⟨searchDesc_notFound root 0 hdesc, searchTitle_notFound root 0 target htitle⟩

/-- C6 (witness): the theorem applied to the linear fixture whose only
    matching element (description "Screen Mirroring", title "Needle") sits
    at depth 11: both searches return none. -/
theorem search_depth_bounded_witness :
    searchByDescription (deepFixture 11) 0 = none
      ∧ searchByTitle (deepFixture 11) 0 ("Needle") = none :=
  search_depth_bounded (deepFixture 11) ("Needle") (by decide) (by decide)

/-- C7: the main of the discovery script emits, on every return path, a JSON
    object whose `found` field is a JSON boolean, and on every path where
    `found` is false the `displays` field is absent. -/
theorem discoveryMain_found_invariant (w : World) :
    (getField (discoveryMain w) ("found") = some (Json.bool true)
       ∨ getField (discoveryMain w) ("found") = some (Json.bool false))
      ∧ (getField (discoveryMain w) ("found") = some (Json.bool false) →
         getField (discoveryMain w) ("displays") = none) := by
  rcases w with ⟨cc, ax, wins⟩
  cases cc with
  | false => exact ⟨Or.inr rfl, fun _ => rfl⟩
  | true =>
    cases ax with
    | none => exact ⟨Or.inr rfl, fun _ => rfl⟩
    | some axApp =>
      cases hsd : searchByDescription axApp 0 with
      | none =>
        constructor
        · right; simp [discoveryMain, hsd, getField, lookupField]
        · intro _; simp [discoveryMain, hsd, getField, lookupField]
      | some el =>
        cases hdw : findControlCenterDialog wins with
        | none =>
          constructor
          · left; simp [discoveryMain, hsd, hdw, getField, lookupField]
          · intro hcontra
            exfalso
            simp [discoveryMain, hsd, hdw, getField, lookupField] at hcontra
        | some dlg =>
          constructor
          · left; simp [discoveryMain, hsd, hdw, getField, lookupField]
          · intro hcontra
            exfalso
            simp [discoveryMain, hsd, hdw, getField, lookupField] at hcontra

/-- C7 (witness): at the world with no Control Center application the
    envelope has `found` false, so by the theorem `displays` is absent. -/
theorem discoveryMain_found_witness :
    getField (discoveryMain emptyWorld) ("displays") = none :=
  (discoveryMain_found_invariant emptyWorld).2 rfl

/-- C8: the discovery collection equals the per-node emission summed over
    the depth-bounded pre-order visit list (node before its children,
    children in document order, nothing at depth > 10, no
    de-duplication). -/
theorem findMirrorDisplays_preorder (root : AXNode) :
    findMirrorDisplays root 0 = (visitedNodes root 0).flatMap emitNode :=
  findMirrorDisplays_visits root 0

/-- C9: the discovery traversal and the full discovery pipeline are pure
    functions of the observed tree/world: two successive evaluations on an
    unchanged state yield structurally equal lists. -/
theorem discovery_deterministic (t : AXNode) (w1 w2 : World) (h : w1 = w2) :
    findMirrorDisplays t 0 = findMirrorDisplays t 0
      ∧ runDiscovery w1 = runDiscovery w2 := by
  subst h; exact ⟨rfl, rfl⟩

/-- C9 (witness): the theorem applied at a concrete tree and a concrete
    world taken twice. -/
theorem discovery_deterministic_witness :
    findMirrorDisplays sampleDialog 0 = findMirrorDisplays sampleDialog 0
      ∧ runDiscovery successWorld = runDiscovery successWorld :=
  discovery_deterministic sampleDialog successWorld successWorld rfl

/-- C10: in every discovery envelope carrying a `displays` field, that field
    encodes some display list `L`, `displayTitles` is exactly the `title`
    fields of `L` in order, and `displayCount` equals the length of `L`. -/
theorem discoveryMain_count_titles (w : World) (ds : Json)
    (h : getField (discoveryMain w) ("displays") = some ds) :
    ∃ L : List LuaDisplay,
      ds = Json.arr (L.map encodeDisplay)
        ∧ getField (discoveryMain w) ("displayTitles")
            = some (Json.arr (L.map (fun x => Json.str x.title)))
        ∧ getField (discoveryMain w) ("displayCount")
            = some (Json.num (L.length : Int)) := by
  rcases w with ⟨cc, ax, wins⟩
  cases cc with
  | false => exact absurd h (by simp [discoveryMain, getField, lookupField])
  | true =>
    cases ax with
    | none => exact absurd h (by simp [discoveryMain, getField, lookupField])
    | some axApp =>
      cases hsd : searchByDescription axApp 0 with
      | none =>
        exact absurd h (by simp [discoveryMain, hsd, getField, lookupField])
      | some el =>
        cases hdw : findControlCenterDialog wins with
        | none =>
          exact absurd h (by simp [discoveryMain, hsd, hdw, getField, lookupField])
        | some dlg =>
          refine ⟨findMirrorDisplays dlg 0, ?_, ?_, ?_⟩
          · simp [discoveryMain, hsd, hdw, getField, lookupField] at h
            exact h.symm
          · simp [discoveryMain, hsd, hdw, getField, lookupField,
              List.map_map, Function.comp]
          · simp [discoveryMain, hsd, hdw, getField, lookupField]

/-- C10 (witness): the theorem applied at the concrete success world whose
    envelope carries one display. -/
theorem discoveryMain_count_titles_witness :
    ∃ L : List LuaDisplay,
      Json.arr [envelopeDisplay ("Bedroom Apple TV", "AXCheckBox")]
        = Json.arr (L.map encodeDisplay)
      ∧ getField (discoveryMain successWorld) ("displayTitles")
          = some (Json.arr (L.map (fun x => Json.str x.title)))
      ∧ getField (discoveryMain successWorld) ("displayCount")
          = some (Json.num (L.length : Int)) :=
  discoveryMain_count_titles successWorld
    (Json.arr [envelopeDisplay ("Bedroom Apple TV", "AXCheckBox")]) rfl
